import Mathlib

/-!
# StaticPod admission validation

A shallow embedding of `pkg/webhook/staticpod/v1alpha1/staticpod_validation.go`:
the spec-level rule checks (`validateStaticPodSpec`), the rule engine
(`validate`) and the lifecycle hooks (`ValidateCreate`, `ValidateUpdate`,
`ValidateDelete`).

Go values are embedded as follows.

* A Go `error` result is an `Option`: `none` is `nil`, `some e` is a failure.
* A `field.ErrorList` is a `List`; a nil slice and an empty slice are both `[]`
  (the source only ever looks at `len` of a list or appends to it).
* The Kubernetes helpers the file imports (`field`, `apierrors`, `schema`) are
  embedded as plain record constructors that keep every argument they are given.
* The template conversion and the structural pod-template validator are
  external capabilities: they are parameters of the embedding
  (`Capabilities`), and so are the declarations of the API package
  `pkg/apis/apps/v1alpha1` that the validator reads (`Declarations`).
* The `context.Context` argument and the webhook receiver are never read by the
  source and are left out; the `klog.Infof` call on the success path only logs.
-/

namespace StaticPodValidation

/-! ## The API types the validator reads -/

namespace intstr

/-- Go `intstr.IntOrString`: an integer or a string (a percentage). -/
inductive IntOrString
  | ofInt (intVal : Int)
  | ofString (strVal : String)
  deriving DecidableEq, Repr

end intstr

namespace v1alpha1

/-- Go `v1alpha1.StaticPodUpgradeStrategy`. `Type_` is the Go field `Type`
(a string type); `MaxUnavailable` is a pointer, `none` being the nil pointer. -/
structure StaticPodUpgradeStrategy where
  Type_ : String
  MaxUnavailable : Option intstr.IntOrString
  deriving DecidableEq, Repr

/-- Go `v1alpha1.StaticPodSpec`, over the type `T` of embedded pod templates. -/
structure StaticPodSpec (T : Type) where
  StaticPodManifest : String
  UpgradeStrategy : StaticPodUpgradeStrategy
  Template : T
  deriving DecidableEq, Repr

/-- Go `v1alpha1.StaticPod`: the object name (from its metadata) and the spec. -/
structure StaticPod (T : Type) where
  Name : String
  Spec : StaticPodSpec T
  deriving DecidableEq, Repr

end v1alpha1

/-! ## `k8s.io/apimachinery/pkg/util/validation/field` -/

namespace field

/-- Go `field.ErrorType`. -/
inductive ErrorType
  | NotFound
  | Required
  | Duplicate
  | Invalid
  | NotSupported
  | Forbidden
  | TooLong
  | TooMany
  | InternalError
  | TypeInvalid
  deriving DecidableEq, Repr

/-- Go `field.Path`, as the list of its segments, root first. -/
structure Path where
  segments : List String
  deriving DecidableEq, Repr

/-- Go `field.NewPath(name)`. -/
def NewPath (name : String) : Path :=
  ⟨[name]⟩

/-- Go `(*Path).Child(name)`. -/
def Path.Child (p : Path) (name : String) : Path :=
  ⟨p.segments ++ [name]⟩

/-- Go `(*Path).String()`: the segments joined by dots. -/
def Path.render (p : Path) : String :=
  ".".intercalate p.segments

/-- The `BadValue` of a `field.Error` (a Go `interface{}`): the empty string
that `field.Required` stores, an upgrade strategy, or any other value (kept as
a description; only the external structural validator produces those). -/
inductive BadValue
  | empty
  | strategy (s : v1alpha1.StaticPodUpgradeStrategy)
  | other (description : String)
  deriving DecidableEq, Repr

/-- The `Detail` of a `field.Error`. `field.NotSupported` renders its valid
values into the detail string (`supported values: ` and the quoted values,
comma separated); the embedding keeps the list of values itself. -/
inductive Detail
  | text (msg : String)
  | supportedValues (validValues : List String)
  deriving DecidableEq, Repr

/-- Go `field.Error`. `ErrType` is the Go field `Type`; `Field` is the rendered
path. -/
structure Error where
  ErrType : ErrorType
  Field : String
  BadValue : BadValue
  Detail : Detail
  deriving DecidableEq, Repr

/-- Go `field.ErrorList`. -/
abbrev ErrorList := List Error

/-- Go `field.Required(path, detail)`. -/
def Required (path : Path) (detail : String) : Error :=
  ⟨ErrorType.Required, path.render, BadValue.empty, Detail.text detail⟩

/-- Go `field.NotSupported(path, value, validValues)`: the detail is empty when
no valid value is given. -/
def NotSupported (path : Path) (value : BadValue) (validValues : List String) : Error :=
  ⟨ErrorType.NotSupported, path.render, value,
    if validValues.length > 0 then Detail.supportedValues validValues else Detail.text ""⟩

end field

/-! ## `k8s.io/apimachinery/pkg/runtime/schema` and `pkg/api/errors` -/

namespace schema

/-- Go `schema.GroupKind`. -/
structure GroupKind where
  Group : String
  Kind : String
  deriving DecidableEq, Repr

/-- Go `schema.GroupVersionKind`. -/
structure GroupVersionKind where
  Group : String
  Version : String
  Kind : String
  deriving DecidableEq, Repr

/-- Go `schema.GroupVersion`. -/
structure GroupVersion where
  Group : String
  Version : String
  deriving DecidableEq, Repr

/-- Go `GroupVersion.WithKind(kind)`. -/
def GroupVersion.WithKind (gv : GroupVersion) (kind : String) : GroupVersionKind :=
  ⟨gv.Group, gv.Version, kind⟩

/-- Go `GroupVersionKind.GroupKind()`. -/
def GroupVersionKind.GroupKind (gvk : GroupVersionKind) : GroupKind :=
  ⟨gvk.Group, gvk.Kind⟩

end schema

namespace apierrors

/-- The two failures the webhook builds (Go `*apierrors.StatusError`): an
invalid-resource condition, with the kind, the object name and the violation
list it was built from, and a bad-request condition with its message. -/
inductive StatusError
  | Invalid (qualifiedKind : schema.GroupKind) (name : String) (errs : field.ErrorList)
  | BadRequest (reason : String)
  deriving DecidableEq, Repr

/-- Go `apierrors.NewInvalid(qualifiedKind, name, errs)`. -/
def NewInvalid (qualifiedKind : schema.GroupKind) (name : String) (errs : field.ErrorList) :
    StatusError :=
  StatusError.Invalid qualifiedKind name errs

/-- Go `apierrors.NewBadRequest(reason)`. -/
def NewBadRequest (reason : String) : StatusError :=
  StatusError.BadRequest reason

end apierrors

/-! ## What the validator takes from outside the file -/

/-- The declarations of the API package `pkg/apis/apps/v1alpha1` that the
validator reads and that are not part of the file: the group/version of the
resource and the three upgrade strategy type constants (Go string constants). -/
structure Declarations where
  GroupVersion : schema.GroupVersion
  AutoStaticPodUpgradeStrategyType : String
  OTAStaticPodUpgradeStrategyType : String
  AdvancedRollingUpdateStaticPodUpgradeStrategyType : String
  deriving DecidableEq, Repr

/-- Go `k8s_validation.PodValidationOptions`; the validator is always called
with the empty options record. -/
structure PodValidationOptions where
  deriving DecidableEq, Repr

/-- The two external capabilities: the conversion of an embedded template (type
`T`) to the canonical template (type `C`), which may fail, and the structural
pod-template validator, called with a canonical template, a path and options. -/
structure Capabilities (T C : Type) where
  Convert_v1_PodTemplateSpec_To_core_PodTemplateSpec : T → Except String C
  ValidatePodTemplateSpec : C → field.Path → PodValidationOptions → field.ErrorList

/-- A Go `runtime.Object` handed to a hook: a StaticPod, or an object of another
type, with the type name that the format verb `%T` prints for it. A nil pointer
of type `*v1alpha1.StaticPod` (which passes the type assertion and is then
dereferenced) is not an object of this type. -/
inductive Object (T : Type)
  | StaticPod (sp : v1alpha1.StaticPod T)
  | Other (typeName : String)
  deriving DecidableEq, Repr

/-! ## The validator -/

/-- Go `validateStaticPodSpec`: the three spec-level checks, accumulated in
source order. -/
def validateStaticPodSpec {T : Type} (d : Declarations) (spec : v1alpha1.StaticPodSpec T) :
    field.ErrorList :=
  let allErrs : field.ErrorList := []
  let allErrs :=
    if spec.StaticPodManifest = "" then
      allErrs ++ [field.Required ((field.NewPath "spec").Child "StaticPodManifest")
        "StaticPodManifest is required"]
    else allErrs
  let strategy := spec.UpgradeStrategy
  let allErrs :=
    if strategy.Type_ ≠ d.AutoStaticPodUpgradeStrategyType ∧
        strategy.Type_ ≠ d.OTAStaticPodUpgradeStrategyType ∧
        strategy.Type_ ≠ d.AdvancedRollingUpdateStaticPodUpgradeStrategyType then
      allErrs ++ [field.NotSupported ((field.NewPath "spec").Child "upgradeStrategy")
        (field.BadValue.strategy strategy) ["auto", "OTA", "AdvancedRollingUpdate"]]
    else allErrs
  let allErrs :=
    if (strategy.Type_ = d.AutoStaticPodUpgradeStrategyType ∨
        strategy.Type_ = d.AdvancedRollingUpdateStaticPodUpgradeStrategyType) ∧
        strategy.MaxUnavailable = none then
      allErrs ++ [field.Required ((field.NewPath "spec").Child "upgradeStrategy")
        "max-unavailable is required in AdvancedRollingUpdate mode"]
    else allErrs
  allErrs

/-- Go `validate`: conversion (a failure returns at once), then the structural
validator, then the spec-level checks; a failure is built when the accumulated
list is non-empty. -/
def validate {T C : Type} (d : Declarations) (k : Capabilities T C) (obj : v1alpha1.StaticPod T) :
    Option apierrors.StatusError :=
  let allErrs : field.ErrorList := []
  match k.Convert_v1_PodTemplateSpec_To_core_PodTemplateSpec obj.Spec.Template with
  | Except.error _ =>
    let allErrs := allErrs ++ [field.Required (field.NewPath "template")
      "template filed should be corev1.PodTemplateSpec type"]
    some (apierrors.NewInvalid (d.GroupVersion.WithKind "StaticPod").GroupKind obj.Name allErrs)
  | Except.ok outPodTemplateSpec =>
    let e := k.ValidatePodTemplateSpec outPodTemplateSpec (field.NewPath "template") {}
    let allErrs := if e.length > 0 then allErrs ++ e else allErrs
    let e := validateStaticPodSpec d obj.Spec
    let allErrs := if e.length > 0 then allErrs ++ e else allErrs
    if allErrs.length > 0 then
      some (apierrors.NewInvalid (d.GroupVersion.WithKind "StaticPod").GroupKind obj.Name allErrs)
    else none

/-- Go `ValidateCreate`. -/
def ValidateCreate {T C : Type} (d : Declarations) (k : Capabilities T C) (obj : Object T) :
    Option apierrors.StatusError :=
  match obj with
  | Object.Other typeName =>
    some (apierrors.NewBadRequest ("expected a StaticPod but got a " ++ typeName))
  | Object.StaticPod sp => validate d k sp

/-- Go `ValidateUpdate`: the new object is type-checked first, then the old
one; the new object is validated first, then the old one. -/
def ValidateUpdate {T C : Type} (d : Declarations) (k : Capabilities T C)
    (oldObj newObj : Object T) : Option apierrors.StatusError :=
  match newObj with
  | Object.Other typeName =>
    some (apierrors.NewBadRequest ("expected a StaticPod but got a " ++ typeName))
  | Object.StaticPod newSP =>
    match oldObj with
    | Object.Other typeName =>
      some (apierrors.NewBadRequest ("expected a StaticPod but got a " ++ typeName))
    | Object.StaticPod oldSP =>
      match validate d k newSP with
      | some err => some err
      | none =>
        match validate d k oldSP with
        | some err => some err
        | none => none

/-- Go `ValidateDelete`. -/
def ValidateDelete {T : Type} (_obj : Object T) : Option apierrors.StatusError :=
  none

/-! ## The acceptance condition as the specification words it -/

/-- The rule table of the specification for the upgrade strategy, in its own
words: the type is one of the three variants, and `MaxUnavailable` is set when
the type is Auto or AdvancedRollingUpdate. -/
def upgradeStrategyRuleTable (d : Declarations) (s : v1alpha1.StaticPodUpgradeStrategy) : Prop :=
  (s.Type_ = d.AutoStaticPodUpgradeStrategyType ∨ s.Type_ = d.OTAStaticPodUpgradeStrategyType ∨
      s.Type_ = d.AdvancedRollingUpdateStaticPodUpgradeStrategyType) ∧
    ((s.Type_ = d.AutoStaticPodUpgradeStrategyType ∨
        s.Type_ = d.AdvancedRollingUpdateStaticPodUpgradeStrategyType) →
      s.MaxUnavailable ≠ none)

instance (d : Declarations) (s : v1alpha1.StaticPodUpgradeStrategy) :
    Decidable (upgradeStrategyRuleTable d s) := by
  unfold upgradeStrategyRuleTable
  infer_instance

/-- The violation the max-unavailable check is described by: a Required at
`spec.upgradeStrategy` with the fixed message. -/
def isMaxUnavailableRequired (e : field.Error) : Prop :=
  e.ErrType = field.ErrorType.Required ∧ e.Field = "spec.upgradeStrategy" ∧
    e.Detail = field.Detail.text "max-unavailable is required in AdvancedRollingUpdate mode"

instance (e : field.Error) : Decidable (isMaxUnavailableRequired e) := by
  unfold isMaxUnavailableRequired
  infer_instance

/-! ## Concrete environments and objects -/

/-- Modelled from the spec: the declarations of the API package
`pkg/apis/apps/v1alpha1` (the group/version and the three upgrade strategy type
constants), which the validator reads and which are not in the file. The
specification names the three legal values of the strategy type `Auto`, `OTA`
and `AdvancedRollingUpdate`, and the three constants take these values. The
group and the version are sample values: the validator only copies the group
into its failures. -/
def v1alpha1.declared : Declarations :=
  ⟨⟨"apps.openyurt.io", "v1alpha1"⟩, "Auto", "OTA", "AdvancedRollingUpdate"⟩

/-- A stub for the two external capabilities: a template is either an
inconvertible one (with the conversion error) or the list of violations that the
structural validator reports for it. -/
def stubCapabilities : Capabilities (Except String field.ErrorList) field.ErrorList :=
  ⟨fun t => t, fun c _ _ => c⟩

/-- A violation as the structural validator may report it. -/
def containersRequired : field.Error :=
  field.Required (((field.NewPath "template").Child "spec").Child "containers") ""

/-- A StaticPod over the stub templates. -/
def mkPod (name manifest type_ : String) (maxUnavailable : Option intstr.IntOrString)
    (template : Except String field.ErrorList) :
    v1alpha1.StaticPod (Except String field.ErrorList) :=
  ⟨name, ⟨manifest, ⟨type_, maxUnavailable⟩, template⟩⟩

/-! ## Shared lemmas -/

section Lemmas

variable {T C : Type}

/-- The manifest violation, as the source builds it. -/
theorem manifestRequired_eq :
    field.Required ((field.NewPath "spec").Child "StaticPodManifest")
        "StaticPodManifest is required" =
      ⟨field.ErrorType.Required, "spec.StaticPodManifest", field.BadValue.empty,
        field.Detail.text "StaticPodManifest is required"⟩ := by
  decide

/-- The NotSupported violation, as the source builds it. -/
theorem strategyNotSupported_eq (v : field.BadValue) (vs : List String) :
    field.NotSupported ((field.NewPath "spec").Child "upgradeStrategy") v vs =
      ⟨field.ErrorType.NotSupported, "spec.upgradeStrategy", v,
        if vs.length > 0 then field.Detail.supportedValues vs else field.Detail.text ""⟩ := by
  have h : ((field.NewPath "spec").Child "upgradeStrategy").render = "spec.upgradeStrategy" := by
    decide
  simp only [field.NotSupported, h]

/-- The max-unavailable violation, as the source builds it. -/
theorem maxUnavailableRequired_eq :
    field.Required ((field.NewPath "spec").Child "upgradeStrategy")
        "max-unavailable is required in AdvancedRollingUpdate mode" =
      ⟨field.ErrorType.Required, "spec.upgradeStrategy", field.BadValue.empty,
        field.Detail.text "max-unavailable is required in AdvancedRollingUpdate mode"⟩ := by
  decide

/-- The list of `validateStaticPodSpec` is the concatenation of what the three
checks contribute, in source order. -/
theorem validateStaticPodSpec_eq (d : Declarations) (spec : v1alpha1.StaticPodSpec T) :
    validateStaticPodSpec d spec =
      (if spec.StaticPodManifest = "" then
          [field.Required ((field.NewPath "spec").Child "StaticPodManifest")
            "StaticPodManifest is required"]
        else []) ++
      ((if spec.UpgradeStrategy.Type_ ≠ d.AutoStaticPodUpgradeStrategyType ∧
            spec.UpgradeStrategy.Type_ ≠ d.OTAStaticPodUpgradeStrategyType ∧
            spec.UpgradeStrategy.Type_ ≠ d.AdvancedRollingUpdateStaticPodUpgradeStrategyType then
          [field.NotSupported ((field.NewPath "spec").Child "upgradeStrategy")
            (field.BadValue.strategy spec.UpgradeStrategy) ["auto", "OTA", "AdvancedRollingUpdate"]]
        else []) ++
      (if (spec.UpgradeStrategy.Type_ = d.AutoStaticPodUpgradeStrategyType ∨
            spec.UpgradeStrategy.Type_ = d.AdvancedRollingUpdateStaticPodUpgradeStrategyType) ∧
            spec.UpgradeStrategy.MaxUnavailable = none then
          [field.Required ((field.NewPath "spec").Child "upgradeStrategy")
            "max-unavailable is required in AdvancedRollingUpdate mode"]
        else [])) := by
  simp only [validateStaticPodSpec]
  split_ifs <;> rfl

/-- The spec-level list is empty exactly when the manifest is non-empty and the
upgrade strategy satisfies the rule table. -/
theorem validateStaticPodSpec_eq_nil_iff (d : Declarations) (spec : v1alpha1.StaticPodSpec T) :
    validateStaticPodSpec d spec = [] ↔
      spec.StaticPodManifest ≠ "" ∧ upgradeStrategyRuleTable d spec.UpgradeStrategy := by
  rw [validateStaticPodSpec_eq]
  unfold upgradeStrategyRuleTable
  split_ifs <;> simp_all
  tauto

/-- On a template that converts, `validate` reports the structural violations
followed by the spec-level ones, and succeeds when there is none. -/
theorem validate_of_convert_ok (d : Declarations) (k : Capabilities T C)
    (obj : v1alpha1.StaticPod T) (c : C)
    (h : k.Convert_v1_PodTemplateSpec_To_core_PodTemplateSpec obj.Spec.Template = Except.ok c) :
    validate d k obj =
      if k.ValidatePodTemplateSpec c (field.NewPath "template") {} ++
          validateStaticPodSpec d obj.Spec = [] then none
      else some (apierrors.StatusError.Invalid ⟨d.GroupVersion.Group, "StaticPod"⟩ obj.Name
        (k.ValidatePodTemplateSpec c (field.NewPath "template") {} ++
          validateStaticPodSpec d obj.Spec)) := by
  unfold validate
  simp only [h]
  generalize k.ValidatePodTemplateSpec c (field.NewPath "template") {} = st
  generalize validateStaticPodSpec d obj.Spec = sp
  cases st <;> cases sp <;>
    simp [apierrors.NewInvalid, schema.GroupVersion.WithKind, schema.GroupVersionKind.GroupKind]

/-- On a template that does not convert, `validate` reports the single
conversion violation. -/
theorem validate_of_convert_error (d : Declarations) (k : Capabilities T C)
    (obj : v1alpha1.StaticPod T) (err : String)
    (h : k.Convert_v1_PodTemplateSpec_To_core_PodTemplateSpec obj.Spec.Template =
      Except.error err) :
    validate d k obj =
      some (apierrors.StatusError.Invalid ⟨d.GroupVersion.Group, "StaticPod"⟩ obj.Name
        [⟨field.ErrorType.Required, "template", field.BadValue.empty,
          field.Detail.text "template filed should be corev1.PodTemplateSpec type"⟩]) := by
  have hp : field.Required (field.NewPath "template")
      "template filed should be corev1.PodTemplateSpec type" =
      ⟨field.ErrorType.Required, "template", field.BadValue.empty,
        field.Detail.text "template filed should be corev1.PodTemplateSpec type"⟩ := by
    decide
  unfold validate
  simp only [h, hp]
  simp [apierrors.NewInvalid, schema.GroupVersion.WithKind, schema.GroupVersionKind.GroupKind]

/-- The result of `validate` depends on the object only through its name, its
template and the spec-level violations. -/
theorem validate_congr (d : Declarations) (k : Capabilities T C) (a b : v1alpha1.StaticPod T)
    (hn : a.Name = b.Name) (ht : a.Spec.Template = b.Spec.Template)
    (hs : validateStaticPodSpec d a.Spec = validateStaticPodSpec d b.Spec) :
    validate d k a = validate d k b := by
  unfold validate
  rw [hn, ht, hs]

/-- A violation of type NotSupported in the spec-level list is the one of the
type check, and the type check has failed. -/
theorem notSupported_of_mem (d : Declarations) (spec : v1alpha1.StaticPodSpec T)
    (e : field.Error) (he : e ∈ validateStaticPodSpec d spec)
    (ht : e.ErrType = field.ErrorType.NotSupported) :
    (spec.UpgradeStrategy.Type_ ≠ d.AutoStaticPodUpgradeStrategyType ∧
        spec.UpgradeStrategy.Type_ ≠ d.OTAStaticPodUpgradeStrategyType ∧
        spec.UpgradeStrategy.Type_ ≠ d.AdvancedRollingUpdateStaticPodUpgradeStrategyType) ∧
      e = field.NotSupported ((field.NewPath "spec").Child "upgradeStrategy")
        (field.BadValue.strategy spec.UpgradeStrategy) ["auto", "OTA", "AdvancedRollingUpdate"] := by
  rw [validateStaticPodSpec_eq, manifestRequired_eq, maxUnavailableRequired_eq] at he
  simp only [List.mem_append] at he
  rcases he with he | he | he
  · split_ifs at he
    · simp only [List.mem_singleton] at he
      rw [he] at ht
      exact absurd ht (by decide)
    · simp at he
  · split_ifs at he with hc
    · simp only [List.mem_singleton] at he
      exact ⟨hc, he⟩
    · simp at he
  · split_ifs at he
    · simp only [List.mem_singleton] at he
      rw [he] at ht
      exact absurd ht (by decide)
    · simp at he

/-- When the type check fails, the spec-level list holds the NotSupported
violation with the supported list written in the source. -/
theorem notSupported_mem (d : Declarations) (spec : v1alpha1.StaticPodSpec T)
    (h : spec.UpgradeStrategy.Type_ ≠ d.AutoStaticPodUpgradeStrategyType ∧
      spec.UpgradeStrategy.Type_ ≠ d.OTAStaticPodUpgradeStrategyType ∧
      spec.UpgradeStrategy.Type_ ≠ d.AdvancedRollingUpdateStaticPodUpgradeStrategyType) :
    field.NotSupported ((field.NewPath "spec").Child "upgradeStrategy")
        (field.BadValue.strategy spec.UpgradeStrategy) ["auto", "OTA", "AdvancedRollingUpdate"] ∈
      validateStaticPodSpec d spec := by
  rw [validateStaticPodSpec_eq, if_pos h]
  simp

/-- The max-unavailable violation is in the spec-level list exactly when the
third check fires. -/
theorem maxUnavailableRequired_mem_iff (d : Declarations) (spec : v1alpha1.StaticPodSpec T) :
    (∃ e ∈ validateStaticPodSpec d spec, isMaxUnavailableRequired e) ↔
      (spec.UpgradeStrategy.Type_ = d.AutoStaticPodUpgradeStrategyType ∨
          spec.UpgradeStrategy.Type_ = d.AdvancedRollingUpdateStaticPodUpgradeStrategyType) ∧
        spec.UpgradeStrategy.MaxUnavailable = none := by
  rw [validateStaticPodSpec_eq, manifestRequired_eq, maxUnavailableRequired_eq]
  constructor
  · rintro ⟨e, he, h1, h2, h3⟩
    simp only [List.mem_append] at he
    rcases he with he | he | he
    · split_ifs at he
      · simp only [List.mem_singleton] at he
        rw [he] at h2
        exact absurd h2 (by decide)
      · simp at he
    · split_ifs at he
      · simp only [List.mem_singleton] at he
        rw [he] at h1
        exact absurd h1 (by simp [field.NotSupported])
      · simp at he
    · split_ifs at he with hc
      · exact hc
      · simp at he
  · intro hc
    refine ⟨⟨field.ErrorType.Required, "spec.upgradeStrategy", field.BadValue.empty,
      field.Detail.text "max-unavailable is required in AdvancedRollingUpdate mode"⟩, ?_,
      rfl, rfl, rfl⟩
    rw [if_pos hc]
    simp

/-- The bad-request message determines the type name it was built from. -/
theorem badRequest_message_injective (a b : String)
    (h : "expected a StaticPod but got a " ++ a = "expected a StaticPod but got a " ++ b) :
    a = b := by
  have hd := congrArg String.data h
  simp only [String.data_append] at hd
  exact String.ext (List.append_cancel_left hd)

/-- On two StaticPods, `ValidateUpdate` succeeds exactly when `validate`
succeeds on both. -/
theorem validateUpdate_eq_none_iff (d : Declarations) (k : Capabilities T C)
    (oldSP newSP : v1alpha1.StaticPod T) :
    ValidateUpdate d k (Object.StaticPod oldSP) (Object.StaticPod newSP) = none ↔
      validate d k oldSP = none ∧ validate d k newSP = none := by
  cases hn : validate d k newSP <;> cases ho : validate d k oldSP <;>
    simp [ValidateUpdate, hn, ho]

end Lemmas

/-! ## Acceptance (C1) -/

/-- C1, as stated, fails: a StaticPod with an empty manifest, the type OTA and a
template that converts and has no structural violation meets the three
conditions of the claim (conversion, structural validation, rule table for the
upgrade strategy), and `validate` rejects it. -/
theorem C1_counterexample :
    (∃ c, stubCapabilities.Convert_v1_PodTemplateSpec_To_core_PodTemplateSpec
          (mkPod "sp" "" "OTA" none (Except.ok [])).Spec.Template = Except.ok c ∧
        stubCapabilities.ValidatePodTemplateSpec c (field.NewPath "template") {} = []) ∧
      upgradeStrategyRuleTable v1alpha1.declared
        (mkPod "sp" "" "OTA" none (Except.ok [])).Spec.UpgradeStrategy ∧
      validate v1alpha1.declared stubCapabilities (mkPod "sp" "" "OTA" none (Except.ok [])) ≠
        none :=
  ⟨⟨[], rfl, rfl⟩, by decide, by decide⟩

/-- C1, amended: `validate` succeeds if and only if the template conversion
succeeds, the structural validator returns no violation for the converted
template, the manifest name is non-empty, and the upgrade strategy satisfies the
rule table. -/
theorem C1_validate_accepts_iff {T C : Type} (d : Declarations) (k : Capabilities T C)
    (obj : v1alpha1.StaticPod T) :
    validate d k obj = none ↔
      (∃ c, k.Convert_v1_PodTemplateSpec_To_core_PodTemplateSpec obj.Spec.Template = Except.ok c ∧
          k.ValidatePodTemplateSpec c (field.NewPath "template") {} = []) ∧
        obj.Spec.StaticPodManifest ≠ "" ∧
        upgradeStrategyRuleTable d obj.Spec.UpgradeStrategy := by
  cases h : k.Convert_v1_PodTemplateSpec_To_core_PodTemplateSpec obj.Spec.Template with
  | error err => simp [validate_of_convert_error d k obj err h]
  | ok c =>
    rw [validate_of_convert_ok d k obj c h]
    simp only [Except.ok.injEq, exists_eq_left']
    rw [← validateStaticPodSpec_eq_nil_iff]
    split_ifs with hl
    · simpa using hl
    · simpa using hl

/-! ## The manifest check (C2) -/

/-- C2: when the manifest name is empty, the list of `validateStaticPodSpec`
contains a Required violation at `spec.StaticPodManifest`, and `validate` fails
on every StaticPod with that spec, whatever the conversion and the structural
validator yield. -/
theorem C2_empty_manifest_rejected {T C : Type} (d : Declarations)
    (spec : v1alpha1.StaticPodSpec T) (h : spec.StaticPodManifest = "") :
    (∃ e ∈ validateStaticPodSpec d spec,
        e.ErrType = field.ErrorType.Required ∧ e.Field = "spec.StaticPodManifest") ∧
      ∀ (k : Capabilities T C) (name : String), validate d k ⟨name, spec⟩ ≠ none := by
  have hmem : (⟨field.ErrorType.Required, "spec.StaticPodManifest", field.BadValue.empty,
      field.Detail.text "StaticPodManifest is required"⟩ : field.Error) ∈
      validateStaticPodSpec d spec := by
    rw [validateStaticPodSpec_eq, manifestRequired_eq]
    simp [h]
  refine ⟨⟨_, hmem, rfl, rfl⟩, ?_⟩
  intro k name
  cases hc : k.Convert_v1_PodTemplateSpec_To_core_PodTemplateSpec spec.Template with
  | error err => simp [validate_of_convert_error d k ⟨name, spec⟩ err hc]
  | ok c =>
    rw [validate_of_convert_ok d k ⟨name, spec⟩ c hc]
    have hne : validateStaticPodSpec d spec ≠ [] := List.ne_nil_of_mem hmem
    simp [hne]

/-- C2 at a StaticPod with an empty manifest and a template that does not
convert, and one whose template converts. -/
theorem C2_empty_manifest_rejected_witness :
    (mkPod "sp" "" "OTA" none (Except.ok [])).Spec.StaticPodManifest = "" ∧
      ((∃ e ∈ validateStaticPodSpec v1alpha1.declared (mkPod "sp" "" "OTA" none (Except.ok [])).Spec,
          e.ErrType = field.ErrorType.Required ∧ e.Field = "spec.StaticPodManifest") ∧
        ∀ (k : Capabilities (Except String field.ErrorList) field.ErrorList) (name : String),
          validate v1alpha1.declared k ⟨name, (mkPod "sp" "" "OTA" none (Except.ok [])).Spec⟩ ≠
            none) :=
  ⟨rfl, C2_empty_manifest_rejected v1alpha1.declared _ rfl⟩

/-! ## The strategy type check (C3) -/

/-- C3, as stated, fails: over the declared type constants, a spec of type
`bogus` (none of the three) gets a NotSupported violation, and no NotSupported
violation of its list has the values of the three constants as its supported
values: the list of the validator starts with `auto`, the constant is `Auto`. -/
theorem C3_counterexample :
    "bogus" ∉
        [v1alpha1.declared.AutoStaticPodUpgradeStrategyType,
          v1alpha1.declared.OTAStaticPodUpgradeStrategyType,
          v1alpha1.declared.AdvancedRollingUpdateStaticPodUpgradeStrategyType] ∧
      (∃ e ∈ validateStaticPodSpec v1alpha1.declared
          (mkPod "sp" "m1" "bogus" none (Except.ok [])).Spec,
        e.ErrType = field.ErrorType.NotSupported) ∧
      ∀ e ∈ validateStaticPodSpec v1alpha1.declared
          (mkPod "sp" "m1" "bogus" none (Except.ok [])).Spec,
        e.ErrType = field.ErrorType.NotSupported →
        e.Detail ≠ field.Detail.supportedValues
          [v1alpha1.declared.AutoStaticPodUpgradeStrategyType,
            v1alpha1.declared.OTAStaticPodUpgradeStrategyType,
            v1alpha1.declared.AdvancedRollingUpdateStaticPodUpgradeStrategyType] := by
  decide

/-- C3, amended: whatever the values of the three type constants, a spec whose
strategy type is none of them gets a NotSupported violation at
`spec.upgradeStrategy` whose supported values are the fixed list `auto`, `OTA`,
`AdvancedRollingUpdate` of the validator, in that order, and it is the only
NotSupported violation of the list; a spec whose type is one of the three
constants gets no NotSupported violation. -/
theorem C3_type_not_supported {T : Type} (d : Declarations) (spec : v1alpha1.StaticPodSpec T) :
    (spec.UpgradeStrategy.Type_ ∉
          [d.AutoStaticPodUpgradeStrategyType, d.OTAStaticPodUpgradeStrategyType,
            d.AdvancedRollingUpdateStaticPodUpgradeStrategyType] →
        (⟨field.ErrorType.NotSupported, "spec.upgradeStrategy",
            field.BadValue.strategy spec.UpgradeStrategy,
            field.Detail.supportedValues ["auto", "OTA", "AdvancedRollingUpdate"]⟩ :
            field.Error) ∈ validateStaticPodSpec d spec ∧
        ∀ e ∈ validateStaticPodSpec d spec,
          e.ErrType = field.ErrorType.NotSupported →
          e = ⟨field.ErrorType.NotSupported, "spec.upgradeStrategy",
            field.BadValue.strategy spec.UpgradeStrategy,
            field.Detail.supportedValues ["auto", "OTA", "AdvancedRollingUpdate"]⟩) ∧
      (spec.UpgradeStrategy.Type_ ∈
          [d.AutoStaticPodUpgradeStrategyType, d.OTAStaticPodUpgradeStrategyType,
            d.AdvancedRollingUpdateStaticPodUpgradeStrategyType] →
        ∀ e ∈ validateStaticPodSpec d spec, e.ErrType ≠ field.ErrorType.NotSupported) := by
  have hlit : field.NotSupported ((field.NewPath "spec").Child "upgradeStrategy")
      (field.BadValue.strategy spec.UpgradeStrategy) ["auto", "OTA", "AdvancedRollingUpdate"] =
      ⟨field.ErrorType.NotSupported, "spec.upgradeStrategy",
        field.BadValue.strategy spec.UpgradeStrategy,
        field.Detail.supportedValues ["auto", "OTA", "AdvancedRollingUpdate"]⟩ := by
    rw [strategyNotSupported_eq]
    simp
  constructor
  · intro h
    have hc : spec.UpgradeStrategy.Type_ ≠ d.AutoStaticPodUpgradeStrategyType ∧
        spec.UpgradeStrategy.Type_ ≠ d.OTAStaticPodUpgradeStrategyType ∧
        spec.UpgradeStrategy.Type_ ≠ d.AdvancedRollingUpdateStaticPodUpgradeStrategyType := by
      simpa using h
    refine ⟨?_, ?_⟩
    · rw [← hlit]
      exact notSupported_mem d spec hc
    · intro e he ht
      rw [← hlit]
      exact (notSupported_of_mem d spec e he ht).2
  · intro h e he ht
    have hc := (notSupported_of_mem d spec e he ht).1
    simp only [List.mem_cons, List.mem_singleton, List.not_mem_nil, or_false] at h
    tauto

/-- C3, amended, at the type `bogus` (outside the three) and at the type
`OTA`. -/
theorem C3_type_not_supported_witness :
    (⟨field.ErrorType.NotSupported, "spec.upgradeStrategy",
        field.BadValue.strategy ⟨"bogus", none⟩,
        field.Detail.supportedValues ["auto", "OTA", "AdvancedRollingUpdate"]⟩ : field.Error) ∈
        validateStaticPodSpec v1alpha1.declared
          (mkPod "sp" "m1" "bogus" none (Except.ok [])).Spec ∧
      ∀ e ∈ validateStaticPodSpec v1alpha1.declared
          (mkPod "sp" "m1" "OTA" none (Except.ok [])).Spec,
        e.ErrType ≠ field.ErrorType.NotSupported :=
  ⟨((C3_type_not_supported v1alpha1.declared
      (mkPod "sp" "m1" "bogus" none (Except.ok [])).Spec).1 (by decide)).1,
    (C3_type_not_supported v1alpha1.declared
      (mkPod "sp" "m1" "OTA" none (Except.ok [])).Spec).2 (by decide)⟩

/-! ## The max-unavailable check (C4, C5) -/

/-- C4: the list of `validateStaticPodSpec` holds a Required violation at
`spec.upgradeStrategy` with the message `max-unavailable is required in
AdvancedRollingUpdate mode` if and only if the type is Auto or
AdvancedRollingUpdate and `MaxUnavailable` is nil; the same spec with any set
`MaxUnavailable` does not get it. -/
theorem C4_max_unavailable_required_iff {T : Type} (d : Declarations)
    (spec : v1alpha1.StaticPodSpec T) :
    ((∃ e ∈ validateStaticPodSpec d spec, isMaxUnavailableRequired e) ↔
        (spec.UpgradeStrategy.Type_ = d.AutoStaticPodUpgradeStrategyType ∨
            spec.UpgradeStrategy.Type_ = d.AdvancedRollingUpdateStaticPodUpgradeStrategyType) ∧
          spec.UpgradeStrategy.MaxUnavailable = none) ∧
      ∀ v : intstr.IntOrString,
        ¬ ∃ e ∈ validateStaticPodSpec d
            (⟨spec.StaticPodManifest, ⟨spec.UpgradeStrategy.Type_, some v⟩, spec.Template⟩ :
              v1alpha1.StaticPodSpec T),
          isMaxUnavailableRequired e := by
  refine ⟨maxUnavailableRequired_mem_iff d spec, ?_⟩
  intro v hv
  have h := (maxUnavailableRequired_mem_iff d _).1 hv
  simp at h

/-- C5: two StaticPods of type OTA that differ only in `MaxUnavailable` get the
same spec-level list and the same result of `validate`, the three type constants
being distinct values. -/
theorem C5_ota_ignores_max_unavailable {T C : Type} (d : Declarations) (k : Capabilities T C)
    (hAuto : d.OTAStaticPodUpgradeStrategyType ≠ d.AutoStaticPodUpgradeStrategyType)
    (hAdv : d.OTAStaticPodUpgradeStrategyType ≠
      d.AdvancedRollingUpdateStaticPodUpgradeStrategyType)
    (name manifest : String) (template : T) (mu mu2 : Option intstr.IntOrString) :
    validateStaticPodSpec d
        (⟨manifest, ⟨d.OTAStaticPodUpgradeStrategyType, mu⟩, template⟩ :
          v1alpha1.StaticPodSpec T) =
      validateStaticPodSpec d ⟨manifest, ⟨d.OTAStaticPodUpgradeStrategyType, mu2⟩, template⟩ ∧
    validate d k ⟨name, ⟨manifest, ⟨d.OTAStaticPodUpgradeStrategyType, mu⟩, template⟩⟩ =
      validate d k ⟨name, ⟨manifest, ⟨d.OTAStaticPodUpgradeStrategyType, mu2⟩, template⟩⟩ := by
  have hs : validateStaticPodSpec d
      (⟨manifest, ⟨d.OTAStaticPodUpgradeStrategyType, mu⟩, template⟩ :
        v1alpha1.StaticPodSpec T) =
      validateStaticPodSpec d
        ⟨manifest, ⟨d.OTAStaticPodUpgradeStrategyType, mu2⟩, template⟩ := by
    rw [validateStaticPodSpec_eq, validateStaticPodSpec_eq]
    simp [hAuto, hAdv]
  exact ⟨hs, validate_congr d k _ _ rfl rfl hs⟩

/-- C5 at the declared constants: an OTA StaticPod with `MaxUnavailable` nil and
the same one with `MaxUnavailable` set to 200. -/
theorem C5_ota_ignores_max_unavailable_witness :
    v1alpha1.declared.OTAStaticPodUpgradeStrategyType ≠
        v1alpha1.declared.AutoStaticPodUpgradeStrategyType ∧
      v1alpha1.declared.OTAStaticPodUpgradeStrategyType ≠
        v1alpha1.declared.AdvancedRollingUpdateStaticPodUpgradeStrategyType ∧
      validate v1alpha1.declared stubCapabilities
          (mkPod "sp" "m1" "OTA" none (Except.ok [containersRequired])) =
        validate v1alpha1.declared stubCapabilities
          (mkPod "sp" "m1" "OTA" (some (intstr.IntOrString.ofInt 200))
            (Except.ok [containersRequired])) :=
  ⟨by decide, by decide,
    (C5_ota_ignores_max_unavailable v1alpha1.declared stubCapabilities (by decide) (by decide)
      "sp" "m1" (Except.ok [containersRequired]) none
      (some (intstr.IntOrString.ofInt 200))).2⟩

/-! ## Conversion failure (C6, C7) -/

/-- C6: when the template conversion fails, `validate` returns an
invalid-resource failure whose violation list has length 1, the violation being
a Required at path `template`; and the result is the same for every structural
validator and every spec: any other object of the same name whose template
fails to convert, under any capabilities, gets the same result. -/
theorem C6_conversion_failure_single_violation {T C : Type} (d : Declarations)
    (k : Capabilities T C) (obj : v1alpha1.StaticPod T)
    (h : ∃ err, k.Convert_v1_PodTemplateSpec_To_core_PodTemplateSpec obj.Spec.Template =
      Except.error err) :
    (∃ errs, validate d k obj =
          some (apierrors.StatusError.Invalid ⟨d.GroupVersion.Group, "StaticPod"⟩ obj.Name errs) ∧
        errs.length = 1 ∧
        ∀ e ∈ errs, e.ErrType = field.ErrorType.Required ∧ e.Field = "template") ∧
      ∀ (k2 : Capabilities T C) (obj2 : v1alpha1.StaticPod T),
        (∃ err, k2.Convert_v1_PodTemplateSpec_To_core_PodTemplateSpec obj2.Spec.Template =
          Except.error err) →
        obj2.Name = obj.Name → validate d k2 obj2 = validate d k obj := by
  obtain ⟨err, h⟩ := h
  constructor
  · refine ⟨_, validate_of_convert_error d k obj err h, rfl, ?_⟩
    intro e he
    simp only [List.mem_singleton] at he
    rw [he]
    exact ⟨rfl, rfl⟩
  · rintro k2 obj2 ⟨err2, h2⟩ hn
    rw [validate_of_convert_error d k obj err h, validate_of_convert_error d k2 obj2 err2 h2, hn]

/-- C6 at a StaticPod whose template does not convert and whose spec has an
empty manifest and an unsupported type: one violation only, and the same result
as for a well-formed spec of the same name. -/
theorem C6_conversion_failure_single_violation_witness :
    (∃ err, stubCapabilities.Convert_v1_PodTemplateSpec_To_core_PodTemplateSpec
        (mkPod "sp" "" "bogus" none (Except.error "cannot convert")).Spec.Template =
        Except.error err) ∧
      (∃ errs, validate v1alpha1.declared stubCapabilities
            (mkPod "sp" "" "bogus" none (Except.error "cannot convert")) =
            some (apierrors.StatusError.Invalid ⟨"apps.openyurt.io", "StaticPod"⟩ "sp" errs) ∧
          errs.length = 1 ∧
          ∀ e ∈ errs, e.ErrType = field.ErrorType.Required ∧ e.Field = "template") ∧
      validate v1alpha1.declared stubCapabilities
          (mkPod "sp" "m1" "OTA" none (Except.error "other")) =
        validate v1alpha1.declared stubCapabilities
          (mkPod "sp" "" "bogus" none (Except.error "cannot convert")) :=
  ⟨⟨"cannot convert", rfl⟩,
    (C6_conversion_failure_single_violation v1alpha1.declared stubCapabilities
      (mkPod "sp" "" "bogus" none (Except.error "cannot convert")) ⟨"cannot convert", rfl⟩).1,
    (C6_conversion_failure_single_violation v1alpha1.declared stubCapabilities
      (mkPod "sp" "" "bogus" none (Except.error "cannot convert")) ⟨"cannot convert", rfl⟩).2
      stubCapabilities (mkPod "sp" "m1" "OTA" none (Except.error "other")) ⟨"other", rfl⟩ rfl⟩

/-- C7, as stated, fails: for a StaticPod whose template does not convert, the
violation that `validate` reports does not carry the message `template field
should be a valid pod template`. -/
theorem C7_counterexample :
    ¬ ∃ e, validate v1alpha1.declared stubCapabilities
          (mkPod "sp" "m1" "OTA" none (Except.error "cannot convert")) =
          some (apierrors.StatusError.Invalid ⟨"apps.openyurt.io", "StaticPod"⟩ "sp" [e]) ∧
        e.Detail = field.Detail.text "template field should be a valid pod template" := by
  rintro ⟨e, he, hd⟩
  rw [validate_of_convert_error v1alpha1.declared stubCapabilities
    (mkPod "sp" "m1" "OTA" none (Except.error "cannot convert")) "cannot convert" rfl] at he
  simp only [Option.some.injEq, apierrors.StatusError.Invalid.injEq, List.cons.injEq,
    and_true] at he
  rw [← he.2.2] at hd
  exact absurd hd (by decide)

/-- C7, amended: when the template conversion fails, the single Required
violation that `validate` produces at path `template` carries the message
`template filed should be corev1.PodTemplateSpec type`. -/
theorem C7_conversion_failure_message {T C : Type} (d : Declarations) (k : Capabilities T C)
    (obj : v1alpha1.StaticPod T)
    (h : ∃ err, k.Convert_v1_PodTemplateSpec_To_core_PodTemplateSpec obj.Spec.Template =
      Except.error err) :
    validate d k obj =
      some (apierrors.StatusError.Invalid ⟨d.GroupVersion.Group, "StaticPod"⟩ obj.Name
        [⟨field.ErrorType.Required, "template", field.BadValue.empty,
          field.Detail.text "template filed should be corev1.PodTemplateSpec type"⟩]) := by
  obtain ⟨err, h⟩ := h
  exact validate_of_convert_error d k obj err h

/-- C7, amended, at a StaticPod whose template does not convert. -/
theorem C7_conversion_failure_message_witness :
    (∃ err, stubCapabilities.Convert_v1_PodTemplateSpec_To_core_PodTemplateSpec
        (mkPod "sp" "m1" "OTA" none (Except.error "cannot convert")).Spec.Template =
        Except.error err) ∧
      validate v1alpha1.declared stubCapabilities
          (mkPod "sp" "m1" "OTA" none (Except.error "cannot convert")) =
        some (apierrors.StatusError.Invalid ⟨"apps.openyurt.io", "StaticPod"⟩ "sp"
          [⟨field.ErrorType.Required, "template", field.BadValue.empty,
            field.Detail.text "template filed should be corev1.PodTemplateSpec type"⟩]) :=
  ⟨⟨"cannot convert", rfl⟩,
    C7_conversion_failure_message v1alpha1.declared stubCapabilities
      (mkPod "sp" "m1" "OTA" none (Except.error "cannot convert")) ⟨"cannot convert", rfl⟩⟩

/-! ## Accumulation (C8) -/

/-- C8: when the template conversion succeeds, the violation list that
`validate` reports is the list of the structural validator (for the converted
template at path `template`) followed by the list of `validateStaticPodSpec`;
`validate` succeeds exactly when this concatenation is empty, and otherwise
fails with exactly this concatenation. -/
theorem C8_violations_concatenated {T C : Type} (d : Declarations) (k : Capabilities T C)
    (obj : v1alpha1.StaticPod T) (c : C)
    (h : k.Convert_v1_PodTemplateSpec_To_core_PodTemplateSpec obj.Spec.Template = Except.ok c) :
    (validate d k obj = none ↔
        k.ValidatePodTemplateSpec c (field.NewPath "template") {} ++
          validateStaticPodSpec d obj.Spec = []) ∧
      (k.ValidatePodTemplateSpec c (field.NewPath "template") {} ++
          validateStaticPodSpec d obj.Spec ≠ [] →
        validate d k obj =
          some (apierrors.StatusError.Invalid ⟨d.GroupVersion.Group, "StaticPod"⟩ obj.Name
            (k.ValidatePodTemplateSpec c (field.NewPath "template") {} ++
              validateStaticPodSpec d obj.Spec))) := by
  rw [validate_of_convert_ok d k obj c h]
  constructor
  · split_ifs with hl
    · simp [hl]
    · simp [hl]
  · intro hne
    rw [if_neg hne]

/-- C8 at a StaticPod with one structural violation, an empty manifest and an
unsupported type: the structural violation comes first and the two spec-level
violations follow. -/
theorem C8_violations_concatenated_witness :
    stubCapabilities.Convert_v1_PodTemplateSpec_To_core_PodTemplateSpec
        (mkPod "sp" "" "bogus" none (Except.ok [containersRequired])).Spec.Template =
        Except.ok [containersRequired] ∧
      validate v1alpha1.declared stubCapabilities
          (mkPod "sp" "" "bogus" none (Except.ok [containersRequired])) =
        some (apierrors.StatusError.Invalid ⟨"apps.openyurt.io", "StaticPod"⟩ "sp"
          ([containersRequired] ++
            validateStaticPodSpec v1alpha1.declared
              (mkPod "sp" "" "bogus" none (Except.ok [containersRequired])).Spec)) :=
  ⟨rfl,
    (C8_violations_concatenated v1alpha1.declared stubCapabilities
      (mkPod "sp" "" "bogus" none (Except.ok [containersRequired])) [containersRequired] rfl).2
      (by decide)⟩

/-! ## Update (C9, C10) -/

/-- C9: when `validate` fails on the candidate, `ValidateUpdate` returns exactly
that failure, whatever the previous StaticPod is. -/
theorem C9_update_candidate_failure_first {T C : Type} (d : Declarations)
    (k : Capabilities T C) (previous candidate : v1alpha1.StaticPod T)
    (h : validate d k candidate ≠ none) :
    ValidateUpdate d k (Object.StaticPod previous) (Object.StaticPod candidate) =
      validate d k candidate := by
  cases hv : validate d k candidate with
  | none => exact absurd hv h
  | some err => simp only [ValidateUpdate, hv]

/-- C9 at an invalid candidate (empty manifest) and a valid previous object. -/
theorem C9_update_candidate_failure_first_witness :
    validate v1alpha1.declared stubCapabilities (mkPod "new" "" "OTA" none (Except.ok [])) ≠
        none ∧
      ValidateUpdate v1alpha1.declared stubCapabilities
          (Object.StaticPod (mkPod "old" "m1" "OTA" none (Except.ok [])))
          (Object.StaticPod (mkPod "new" "" "OTA" none (Except.ok []))) =
        validate v1alpha1.declared stubCapabilities (mkPod "new" "" "OTA" none (Except.ok [])) :=
  ⟨by decide,
    C9_update_candidate_failure_first v1alpha1.declared stubCapabilities
      (mkPod "old" "m1" "OTA" none (Except.ok [])) (mkPod "new" "" "OTA" none (Except.ok []))
      (by decide)⟩

/-- C10: when `validate` succeeds on the candidate, `ValidateUpdate` returns
exactly the result of `validate` on the previous object; a valid candidate with
an invalid previous object is rejected with the failure of the previous one. -/
theorem C10_update_then_previous {T C : Type} (d : Declarations) (k : Capabilities T C)
    (previous candidate : v1alpha1.StaticPod T) (h : validate d k candidate = none) :
    ValidateUpdate d k (Object.StaticPod previous) (Object.StaticPod candidate) =
      validate d k previous := by
  unfold ValidateUpdate
  simp only [h]
  cases validate d k previous <;> rfl

/-- C10 at a valid candidate and a previous object with an empty manifest: the
update is rejected with the violation and the name of the previous object. -/
theorem C10_update_then_previous_witness :
    validate v1alpha1.declared stubCapabilities (mkPod "new" "m1" "OTA" none (Except.ok [])) =
        none ∧
      ValidateUpdate v1alpha1.declared stubCapabilities
          (Object.StaticPod (mkPod "old" "" "OTA" none (Except.ok [])))
          (Object.StaticPod (mkPod "new" "m1" "OTA" none (Except.ok []))) =
        validate v1alpha1.declared stubCapabilities (mkPod "old" "" "OTA" none (Except.ok [])) ∧
      validate v1alpha1.declared stubCapabilities (mkPod "old" "" "OTA" none (Except.ok [])) =
        some (apierrors.StatusError.Invalid ⟨"apps.openyurt.io", "StaticPod"⟩ "old"
          [field.Required ((field.NewPath "spec").Child "StaticPodManifest")
            "StaticPodManifest is required"]) :=
  ⟨by decide,
    C10_update_then_previous v1alpha1.declared stubCapabilities
      (mkPod "old" "" "OTA" none (Except.ok [])) (mkPod "new" "m1" "OTA" none (Except.ok []))
      (by decide),
    by decide⟩

/-! ## Type mismatch and deletion (C11, C12) -/

/-- C11: on an object that is not a StaticPod, `ValidateCreate` fails with a
bad-request condition whose message ends in the type name of the object; and
when the previous or the candidate object (or both) is not a StaticPod,
`ValidateUpdate` fails with a bad-request condition, never with an
invalid-resource condition, whatever the other object is. -/
theorem C11_type_mismatch_bad_request {T C : Type} (d : Declarations) (k : Capabilities T C) :
    (∀ typeName : String,
        ValidateCreate d k (Object.Other typeName : Object T) =
          some (apierrors.StatusError.BadRequest
            ("expected a StaticPod but got a " ++ typeName))) ∧
      ∀ oldObj newObj : Object T,
        ((∃ t, oldObj = Object.Other t) ∨ (∃ t, newObj = Object.Other t)) →
        (∃ reason, ValidateUpdate d k oldObj newObj =
            some (apierrors.StatusError.BadRequest reason)) ∧
          ∀ gk name errs, ValidateUpdate d k oldObj newObj ≠
            some (apierrors.StatusError.Invalid gk name errs) := by
  refine ⟨fun _ => rfl, ?_⟩
  intro oldObj newObj h
  have hbad : ∃ reason, ValidateUpdate d k oldObj newObj =
      some (apierrors.StatusError.BadRequest reason) := by
    cases newObj with
    | Other tn => exact ⟨_, rfl⟩
    | StaticPod newSP =>
      cases oldObj with
      | Other tp => exact ⟨_, rfl⟩
      | StaticPod oldSP =>
        rcases h with ⟨t, ht⟩ | ⟨t, ht⟩ <;> cases ht
  obtain ⟨reason, hr⟩ := hbad
  refine ⟨⟨reason, hr⟩, ?_⟩
  intro gk name errs hinv
  rw [hr] at hinv
  cases hinv

/-- C11 at a pair whose candidate is a Pod and whose previous object is a
StaticPod that `validate` rejects, and at the mirrored pair. -/
theorem C11_type_mismatch_bad_request_witness :
    validate v1alpha1.declared stubCapabilities (mkPod "sp" "" "bogus" none (Except.ok [])) ≠
        none ∧
      (∃ reason, ValidateUpdate v1alpha1.declared stubCapabilities
          (Object.StaticPod (mkPod "sp" "" "bogus" none (Except.ok [])))
          (Object.Other "*v1.Pod") = some (apierrors.StatusError.BadRequest reason)) ∧
      ∀ gk name errs, ValidateUpdate v1alpha1.declared stubCapabilities
          (Object.Other "*v1.Pod")
          (Object.StaticPod (mkPod "sp" "" "bogus" none (Except.ok []))) ≠
        some (apierrors.StatusError.Invalid gk name errs) :=
  ⟨by decide,
    ((C11_type_mismatch_bad_request v1alpha1.declared stubCapabilities).2
      (Object.StaticPod (mkPod "sp" "" "bogus" none (Except.ok []))) (Object.Other "*v1.Pod")
      (Or.inr ⟨"*v1.Pod", rfl⟩)).1,
    ((C11_type_mismatch_bad_request v1alpha1.declared stubCapabilities).2
      (Object.Other "*v1.Pod") (Object.StaticPod (mkPod "sp" "" "bogus" none (Except.ok [])))
      (Or.inl ⟨"*v1.Pod", rfl⟩)).2⟩

/-- C12: `ValidateDelete` returns success on every object, a StaticPod (valid or
not, convertible or not) or an object of another type. -/
theorem C12_delete_always_succeeds {T : Type} (obj : Object T) :
    ValidateDelete obj = none := by
  cases obj <;> rfl

/-! ## The spec-level list as a whole (C13, C16) -/

/-- C13: for a spec with an empty manifest and a strategy type outside the three
constants, `validateStaticPodSpec` returns exactly two violations: a Required at
`spec.StaticPodManifest`, then a NotSupported at `spec.upgradeStrategy`,
whatever `MaxUnavailable` is. -/
theorem C13_empty_manifest_and_bogus_type {T : Type} (d : Declarations)
    (spec : v1alpha1.StaticPodSpec T) (hm : spec.StaticPodManifest = "")
    (ht : spec.UpgradeStrategy.Type_ ≠ d.AutoStaticPodUpgradeStrategyType ∧
      spec.UpgradeStrategy.Type_ ≠ d.OTAStaticPodUpgradeStrategyType ∧
      spec.UpgradeStrategy.Type_ ≠ d.AdvancedRollingUpdateStaticPodUpgradeStrategyType) :
    validateStaticPodSpec d spec =
      [⟨field.ErrorType.Required, "spec.StaticPodManifest", field.BadValue.empty,
          field.Detail.text "StaticPodManifest is required"⟩,
        ⟨field.ErrorType.NotSupported, "spec.upgradeStrategy",
          field.BadValue.strategy spec.UpgradeStrategy,
          field.Detail.supportedValues ["auto", "OTA", "AdvancedRollingUpdate"]⟩] := by
  have h3 : ¬ ((spec.UpgradeStrategy.Type_ = d.AutoStaticPodUpgradeStrategyType ∨
      spec.UpgradeStrategy.Type_ = d.AdvancedRollingUpdateStaticPodUpgradeStrategyType) ∧
      spec.UpgradeStrategy.MaxUnavailable = none) := by
    tauto
  rw [validateStaticPodSpec_eq, if_pos hm, if_pos ht, if_neg h3, manifestRequired_eq,
    strategyNotSupported_eq]
  simp

/-- C13 at the manifest `""` and the type `bogus`, with `MaxUnavailable` set. -/
theorem C13_empty_manifest_and_bogus_type_witness :
    validateStaticPodSpec v1alpha1.declared
        (mkPod "sp" "" "bogus" (some (intstr.IntOrString.ofString "10%")) (Except.ok [])).Spec =
      [⟨field.ErrorType.Required, "spec.StaticPodManifest", field.BadValue.empty,
          field.Detail.text "StaticPodManifest is required"⟩,
        ⟨field.ErrorType.NotSupported, "spec.upgradeStrategy",
          field.BadValue.strategy ⟨"bogus", some (intstr.IntOrString.ofString "10%")⟩,
          field.Detail.supportedValues ["auto", "OTA", "AdvancedRollingUpdate"]⟩] :=
  C13_empty_manifest_and_bogus_type v1alpha1.declared
    (mkPod "sp" "" "bogus" (some (intstr.IntOrString.ofString "10%")) (Except.ok [])).Spec rfl
    (by decide)

/-- C16: `validateStaticPodSpec` returns at most two violations; the
NotSupported violation and the max-unavailable Required violation never occur
together, and the list is empty, the manifest violation alone, one strategy
violation alone, or the manifest violation followed by one strategy
violation. -/
theorem C16_at_most_two_violations {T : Type} (d : Declarations)
    (spec : v1alpha1.StaticPodSpec T) :
    (validateStaticPodSpec d spec).length ≤ 2 ∧
      ¬ ((∃ e ∈ validateStaticPodSpec d spec, e.ErrType = field.ErrorType.NotSupported) ∧
        ∃ e ∈ validateStaticPodSpec d spec, isMaxUnavailableRequired e) ∧
      (validateStaticPodSpec d spec = [] ∨
        validateStaticPodSpec d spec =
          [field.Required ((field.NewPath "spec").Child "StaticPodManifest")
            "StaticPodManifest is required"] ∨
        validateStaticPodSpec d spec =
          [field.NotSupported ((field.NewPath "spec").Child "upgradeStrategy")
            (field.BadValue.strategy spec.UpgradeStrategy)
            ["auto", "OTA", "AdvancedRollingUpdate"]] ∨
        validateStaticPodSpec d spec =
          [field.Required ((field.NewPath "spec").Child "upgradeStrategy")
            "max-unavailable is required in AdvancedRollingUpdate mode"] ∨
        validateStaticPodSpec d spec =
          [field.Required ((field.NewPath "spec").Child "StaticPodManifest")
              "StaticPodManifest is required",
            field.NotSupported ((field.NewPath "spec").Child "upgradeStrategy")
              (field.BadValue.strategy spec.UpgradeStrategy)
              ["auto", "OTA", "AdvancedRollingUpdate"]] ∨
        validateStaticPodSpec d spec =
          [field.Required ((field.NewPath "spec").Child "StaticPodManifest")
              "StaticPodManifest is required",
            field.Required ((field.NewPath "spec").Child "upgradeStrategy")
              "max-unavailable is required in AdvancedRollingUpdate mode"]) := by
  have hshape : validateStaticPodSpec d spec = [] ∨
      validateStaticPodSpec d spec =
        [field.Required ((field.NewPath "spec").Child "StaticPodManifest")
          "StaticPodManifest is required"] ∨
      validateStaticPodSpec d spec =
        [field.NotSupported ((field.NewPath "spec").Child "upgradeStrategy")
          (field.BadValue.strategy spec.UpgradeStrategy)
          ["auto", "OTA", "AdvancedRollingUpdate"]] ∨
      validateStaticPodSpec d spec =
        [field.Required ((field.NewPath "spec").Child "upgradeStrategy")
          "max-unavailable is required in AdvancedRollingUpdate mode"] ∨
      validateStaticPodSpec d spec =
        [field.Required ((field.NewPath "spec").Child "StaticPodManifest")
            "StaticPodManifest is required",
          field.NotSupported ((field.NewPath "spec").Child "upgradeStrategy")
            (field.BadValue.strategy spec.UpgradeStrategy)
            ["auto", "OTA", "AdvancedRollingUpdate"]] ∨
      validateStaticPodSpec d spec =
        [field.Required ((field.NewPath "spec").Child "StaticPodManifest")
            "StaticPodManifest is required",
          field.Required ((field.NewPath "spec").Child "upgradeStrategy")
            "max-unavailable is required in AdvancedRollingUpdate mode"] := by
    rw [validateStaticPodSpec_eq]
    split_ifs with h1 h2 h3 h3 h2 h3 h3
    all_goals first
      | (exfalso; tauto)
      | simp
  refine ⟨?_, ?_, hshape⟩
  · rcases hshape with h | h | h | h | h | h <;> rw [h] <;> simp
  · rintro ⟨⟨e, he, hte⟩, hreq⟩
    have h2 := (notSupported_of_mem d spec e he hte).1
    have h3 := (maxUnavailableRequired_mem_iff d spec).1 hreq
    tauto

/-! ## A valid object (C14) and the shape of failures (C15) -/

/-- C14: a StaticPod with a non-empty manifest, the type OTA, and a template that
converts and has no structural violation passes `validate` and
`ValidateCreate`, whatever its `MaxUnavailable`, the three type constants being
distinct values. -/
theorem C14_valid_ota_accepted {T C : Type} (d : Declarations) (k : Capabilities T C)
    (hAuto : d.OTAStaticPodUpgradeStrategyType ≠ d.AutoStaticPodUpgradeStrategyType)
    (hAdv : d.OTAStaticPodUpgradeStrategyType ≠
      d.AdvancedRollingUpdateStaticPodUpgradeStrategyType)
    (name manifest : String) (mu : Option intstr.IntOrString) (template : T) (c : C)
    (hm : manifest ≠ "")
    (hc : k.Convert_v1_PodTemplateSpec_To_core_PodTemplateSpec template = Except.ok c)
    (hs : k.ValidatePodTemplateSpec c (field.NewPath "template") {} = []) :
    validate d k ⟨name, ⟨manifest, ⟨d.OTAStaticPodUpgradeStrategyType, mu⟩, template⟩⟩ = none ∧
      ValidateCreate d k
          (Object.StaticPod
            ⟨name, ⟨manifest, ⟨d.OTAStaticPodUpgradeStrategyType, mu⟩, template⟩⟩) =
        none := by
  have hv : validate d k
      ⟨name, ⟨manifest, ⟨d.OTAStaticPodUpgradeStrategyType, mu⟩, template⟩⟩ = none := by
    have hsp : validateStaticPodSpec d
        (⟨manifest, ⟨d.OTAStaticPodUpgradeStrategyType, mu⟩, template⟩ :
          v1alpha1.StaticPodSpec T) = [] := by
      rw [validateStaticPodSpec_eq_nil_iff]
      refine ⟨hm, Or.inr (Or.inl rfl), ?_⟩
      rintro (h | h)
      · exact absurd h hAuto
      · exact absurd h hAdv
    rw [validate_of_convert_ok d k _ c hc, hs, hsp]
    rfl
  exact ⟨hv, hv⟩

/-- C14 at the manifest `m1`, the type `OTA` and a valid template. -/
theorem C14_valid_ota_accepted_witness :
    validate v1alpha1.declared stubCapabilities (mkPod "sp" "m1" "OTA" none (Except.ok [])) =
        none ∧
      ValidateCreate v1alpha1.declared stubCapabilities
          (Object.StaticPod (mkPod "sp" "m1" "OTA" none (Except.ok []))) =
        none :=
  C14_valid_ota_accepted v1alpha1.declared stubCapabilities (by decide) (by decide)
    "sp" "m1" none (Except.ok []) [] (by decide) rfl rfl

/-- C15: every failure that `validate` returns is an invalid-resource condition
for the kind StaticPod of the group of the API package and for the name of the
validated object, with a non-empty violation list. -/
theorem C15_failure_is_invalid_resource {T C : Type} (d : Declarations) (k : Capabilities T C)
    (obj : v1alpha1.StaticPod T) (err : apierrors.StatusError)
    (h : validate d k obj = some err) :
    ∃ errs, errs ≠ [] ∧
      err = apierrors.NewInvalid (d.GroupVersion.WithKind "StaticPod").GroupKind obj.Name errs ∧
      (d.GroupVersion.WithKind "StaticPod").GroupKind = ⟨d.GroupVersion.Group, "StaticPod"⟩ := by
  cases hc : k.Convert_v1_PodTemplateSpec_To_core_PodTemplateSpec obj.Spec.Template with
  | error e =>
    rw [validate_of_convert_error d k obj e hc] at h
    simp only [Option.some.injEq] at h
    exact ⟨_, by simp, h.symm, rfl⟩
  | ok c =>
    rw [validate_of_convert_ok d k obj c hc] at h
    split_ifs at h with hl
    simp only [Option.some.injEq] at h
    exact ⟨_, hl, h.symm, rfl⟩

/-- C15 on the conversion-failure path and on the accumulation path. -/
theorem C15_failure_is_invalid_resource_witness :
    (∃ errs, errs ≠ [] ∧
        apierrors.StatusError.Invalid ⟨"apps.openyurt.io", "StaticPod"⟩ "sp"
            [field.Required (field.NewPath "template")
              "template filed should be corev1.PodTemplateSpec type"] =
          apierrors.NewInvalid (v1alpha1.declared.GroupVersion.WithKind "StaticPod").GroupKind
            (mkPod "sp" "m1" "OTA" none (Except.error "cannot convert")).Name errs ∧
        (v1alpha1.declared.GroupVersion.WithKind "StaticPod").GroupKind =
          ⟨v1alpha1.declared.GroupVersion.Group, "StaticPod"⟩) ∧
      ∃ errs, errs ≠ [] ∧
        apierrors.StatusError.Invalid ⟨"apps.openyurt.io", "StaticPod"⟩ "sp"
            [field.Required ((field.NewPath "spec").Child "StaticPodManifest")
              "StaticPodManifest is required"] =
          apierrors.NewInvalid (v1alpha1.declared.GroupVersion.WithKind "StaticPod").GroupKind
            (mkPod "sp" "" "OTA" none (Except.ok [])).Name errs ∧
        (v1alpha1.declared.GroupVersion.WithKind "StaticPod").GroupKind =
          ⟨v1alpha1.declared.GroupVersion.Group, "StaticPod"⟩ :=
  ⟨C15_failure_is_invalid_resource v1alpha1.declared stubCapabilities
      (mkPod "sp" "m1" "OTA" none (Except.error "cannot convert")) _ (by decide),
    C15_failure_is_invalid_resource v1alpha1.declared stubCapabilities
      (mkPod "sp" "" "OTA" none (Except.ok [])) _ (by decide)⟩

/-! ## Update as a whole (C17, C18) -/

/-- C17: on two StaticPods, `ValidateUpdate` succeeds if and only if
`ValidateCreate` succeeds on both, so acceptance of an update is symmetric in
its two arguments; the reported failure need not be the same in the two
orders. -/
theorem C17_update_iff_both_create :
    (∀ (T C : Type) (d : Declarations) (k : Capabilities T C) (a b : v1alpha1.StaticPod T),
        (ValidateUpdate d k (Object.StaticPod a) (Object.StaticPod b) = none ↔
          ValidateCreate d k (Object.StaticPod a) = none ∧
            ValidateCreate d k (Object.StaticPod b) = none) ∧
        (ValidateUpdate d k (Object.StaticPod a) (Object.StaticPod b) = none ↔
          ValidateUpdate d k (Object.StaticPod b) (Object.StaticPod a) = none)) ∧
      ValidateUpdate v1alpha1.declared stubCapabilities
          (Object.StaticPod (mkPod "a" "" "OTA" none (Except.ok [])))
          (Object.StaticPod (mkPod "b" "" "OTA" none (Except.ok []))) ≠
        ValidateUpdate v1alpha1.declared stubCapabilities
          (Object.StaticPod (mkPod "b" "" "OTA" none (Except.ok [])))
          (Object.StaticPod (mkPod "a" "" "OTA" none (Except.ok []))) := by
  refine ⟨?_, by decide⟩
  intro T C d k a b
  refine ⟨validateUpdate_eq_none_iff d k a b, ?_⟩
  rw [validateUpdate_eq_none_iff, validateUpdate_eq_none_iff]
  exact And.comm

/-- C18: when neither object passed to `ValidateUpdate` is a StaticPod, the
bad-request message is built from the type name of the candidate (new) object;
when the two type names differ it is not the message for the previous one. -/
theorem C18_update_names_candidate_type {T C : Type} (d : Declarations) (k : Capabilities T C)
    (oldType newType : String) :
    ValidateUpdate d k (Object.Other oldType : Object T) (Object.Other newType) =
        some (apierrors.StatusError.BadRequest
          ("expected a StaticPod but got a " ++ newType)) ∧
      (oldType ≠ newType →
        ValidateUpdate d k (Object.Other oldType : Object T) (Object.Other newType) ≠
          some (apierrors.StatusError.BadRequest
            ("expected a StaticPod but got a " ++ oldType))) := by
  refine ⟨rfl, ?_⟩
  intro hne h
  simp only [ValidateUpdate, apierrors.NewBadRequest, Option.some.injEq,
    apierrors.StatusError.BadRequest.injEq] at h
  exact hne (badRequest_message_injective newType oldType h).symm

/-- C18 at a previous object of type Pod and a candidate of type Node. -/
theorem C18_update_names_candidate_type_witness :
    ValidateUpdate v1alpha1.declared stubCapabilities
        (Object.Other "*v1.Pod") (Object.Other "*v1.Node") =
        some (apierrors.StatusError.BadRequest "expected a StaticPod but got a *v1.Node") ∧
      ValidateUpdate v1alpha1.declared stubCapabilities
          (Object.Other "*v1.Pod") (Object.Other "*v1.Node") ≠
        some (apierrors.StatusError.BadRequest
          ("expected a StaticPod but got a " ++ "*v1.Pod")) :=
  ⟨(C18_update_names_candidate_type v1alpha1.declared stubCapabilities "*v1.Pod" "*v1.Node").1,
    (C18_update_names_candidate_type v1alpha1.declared stubCapabilities "*v1.Pod" "*v1.Node").2
      (by decide)⟩

end StaticPodValidation
